import Mathlib

/-!
Shallow embedding of the OAuth-protected MCP reference implementation
(`mcp-with-oauth`): the loopback callback listener and authorization-flow
orchestration of `cognito-and-ac-gateway/client.py`, the JWKS token verifier of
`cognito/cognito_token_verifier.py`, and the introspection endpoint of
`local/auth_server.py`.  Each definition carries a comment naming the source
function it embeds.
-/

/-! ## Loopback callback listener (`cognito-and-ac-gateway/client.py`) -/

/-- `CallbackServer.callback_data` (client.py line 157): the dictionary
`{"authorization_code": None, "state": None, "error": None}` shared between the
HTTP handler and the waiting orchestrator.  Python `None` is `Option.none`. -/
structure CallbackData where
  authorization_code : Option String
  state : Option String
  error : Option String
deriving DecidableEq, Repr

/-- Initial value of `callback_data` set in `CallbackServer.__init__`. -/
def initialCallbackData : CallbackData := ⟨none, none, none⟩

/-- Python truthiness of an optional string: `None` and `""` are falsy. -/
def pyTruthy : Option String → Bool
  | none => false
  | some s => s != ""

/-- Split a character list at every occurrence of `c` (like Python
`str.split(c)` on the underlying text). -/
def splitOnChar (c : Char) : List Char → List (List Char)
  | [] => [[]]
  | x :: xs =>
    let r := splitOnChar c xs
    if x = c then [] :: r
    else
      match r with
      | [] => [[x]]
      | y :: ys => (x :: y) :: ys

/-- Split a character list at the first occurrence of `c`, like Python
`str.split(c, 1)`; `none` when `c` does not occur. -/
def breakAtChar (c : Char) : List Char → Option (List Char × List Char)
  | [] => none
  | x :: xs =>
    if x = c then some ([], xs)
    else (breakAtChar c xs).map (fun p => (x :: p.1, p.2))

/-- `urllib.parse.parse_qsl` with the default `keep_blank_values=False`, as used
by `parse_qs` in `CallbackHandler.do_GET` (client.py line 89): split the query
on `&`, split each field at the first `=`, and drop fields with no `=` or with
an empty value. -/
def parseQsl (query : List Char) : List (String × String) :=
  (splitOnChar '&' query).filterMap fun nv =>
    match breakAtChar '=' nv with
    | none => none
    | some (name, value) =>
      if value.isEmpty then none else some (String.mk name, String.mk value)

/-- First value listed for key `k`: `parse_qs` groups values by key in order of
occurrence, and the handler reads `query_params[k][0]` /
`query_params.get(k, [None])[0]`. -/
def getFirst (ps : List (String × String)) (k : String) : Option String :=
  (ps.find? fun p => p.1 == k).map (·.2)

/-- The query component of a request path, as computed by
`urlparse(self.path).query` (client.py line 88): the part after the first `?`,
with any fragment (after the first `#`) excluded. -/
def queryChars (path : List Char) : List Char :=
  let noFrag := path.takeWhile (fun ch => ch != '#')
  match breakAtChar '?' noFrag with
  | some p => p.2
  | none => []

/-- `CallbackHandler.do_GET` (client.py lines 86-132): on a `code` query
parameter store the code and state and answer 200; otherwise on an `error`
parameter store the error and answer 400; otherwise answer 404.  Returns the
updated `callback_data` together with the HTTP status sent. -/
def doGet (cd : CallbackData) (path : String) : CallbackData × Nat :=
  match getFirst (parseQsl (queryChars path.toList)) "code" with
  | some code =>
    (⟨some code, getFirst (parseQsl (queryChars path.toList)) "state", cd.error⟩, 200)
  | none =>
    match getFirst (parseQsl (queryChars path.toList)) "error" with
    | some e => (⟨cd.authorization_code, cd.state, some e⟩, 400)
    | none => (cd, 404)

/-- Outcome of `CallbackServer.wait_for_callback`: return the code, raise
`Exception("OAuth error: ...")`, or raise `Exception("OAuth callback wait timed
out")`. -/
inductive WaitResult where
  | code (c : String)
  | oauthError (reason : String)
  | timeout
deriving DecidableEq, Repr

/-- One iteration of the polling loop in `wait_for_callback` (client.py lines
199-204): `if self.callback_data["authorization_code"]: return it; elif
self.callback_data["error"]: raise ...` — both guards use Python truthiness. -/
def waitStep (d : CallbackData) : Option WaitResult :=
  if pyTruthy d.authorization_code then d.authorization_code.map WaitResult.code
  else if pyTruthy d.error then d.error.map WaitResult.oauthError
  else none

/-- `CallbackServer.wait_for_callback` (client.py lines 185-205), discretised by
poll iterations: the loop polls the shared dictionary every 0.1 s until the
deadline; `hist i` is the state of `callback_data` seen at the `i`-th poll, and
`fuel` is the number of polls that fit in the timeout. -/
def waitForCallback : Nat → (Nat → CallbackData) → WaitResult
  | 0, _ => .timeout
  | n + 1, hist =>
    match waitStep (hist 0) with
    | some r => r
    | none => waitForCallback n (fun i => hist (i + 1))

/-- `CallbackServer.get_state` (client.py lines 207-209). -/
def getState (d : CallbackData) : Option String := d.state

/-! ## Orchestrator control flow (`SimpleAuthClient.connect`, client.py 238-326) -/

/-- How the wait for the OAuth callback ends, as seen by
`SimpleAuthClient.connect.callback_handler`. -/
inductive CallbackOutcome where
  | success (code : String) (state : Option String)
  | cbError (reason : String)
  | cbTimeout
deriving DecidableEq, Repr

/-- Externally observable resource/flow events of `SimpleAuthClient.connect`. -/
inductive FlowEvent where
  | startServer
  | waitCall
  | stopServer
  | tokenExchange
  | runSession
deriving DecidableEq, Repr

/-- `callback_handler` (client.py lines 250-257): `try:
wait_for_callback(timeout=300); return code, state finally:
callback_server.stop()` — the `finally` runs `stop()` on the normal return, the
error raise and the timeout raise alike. -/
def callbackHandlerEvents (o : CallbackOutcome) : List FlowEvent :=
  match o with
  | .success _ _ => [.waitCall, .stopServer]
  | .cbError _ => [.waitCall, .stopServer]
  | .cbTimeout => [.waitCall, .stopServer]

/-- How one run of `SimpleAuthClient.connect` (client.py lines 238-326) can go:
either the transport's OAuth flow reaches the point of awaiting
`callback_handler` (with some outcome), or the flow raises — e.g. the
`streamablehttp_client` connection at line 316 fails, or the server demands no
auth — before `callback_handler` is ever awaited. -/
inductive ConnectScenario where
  | authFlowRuns (o : CallbackOutcome)
  | failsBeforeCallback
deriving DecidableEq, Repr

/-- Event trace of `SimpleAuthClient.connect`: the callback server is started
(lines 247-248) inside the `try`; when the OAuth flow runs, `callback_handler`
executes (its `finally` stopping the server), and only a successful callback is
followed by the token exchange and the MCP session; when the flow raises before
the callback, control jumps to the `except` at lines 323-326, which only prints
— no `stop()` is executed on that path. -/
def connectEvents : ConnectScenario → List FlowEvent
  | .authFlowRuns o =>
    FlowEvent.startServer :: callbackHandlerEvents o ++
      (match o with
       | .success _ _ => [FlowEvent.tokenExchange, FlowEvent.runSession]
       | _ => [])
  | .failsBeforeCallback => [FlowEvent.startServer]

/-! ## JWKS token verifier (`cognito/cognito_token_verifier.py`) -/

/-- One entry of the JWKS `keys` array.  `kid` is the key identifier the
verifier matches against the token header; `keyId` abstracts the RSA public-key
material produced by `RSAAlgorithm.from_jwk` — two entries hold the same key
exactly when their `keyId`s are equal. -/
structure JWK where
  kid : String
  keyId : Nat
deriving DecidableEq, Repr

/-- The claims of a decoded JWT payload that `verify_token` reads.  Claims the
token does not carry are `none`. -/
structure Payload where
  token_use : Option String
  aud : Option String
  client_id : Option String
  scope : Option String
  exp : Option Int
  iss : Option String
deriving DecidableEq, Repr

/-- A structurally well-formed JWT: `raw` is the original token string (echoed
back in the result), `kid` the optional header key id read by
`jwt.get_unverified_header`, `payload` the claims, and `signedBy` the identity
of the key that actually produced the signature (so that verification with key
`k` succeeds exactly when `k = signedBy`). -/
structure JwtToken where
  raw : String
  kid : Option String
  payload : Payload
  signedBy : Nat
deriving DecidableEq, Repr

/-- Input to `verify_token`: an arbitrary string is either not parseable as a
JWT (`jwt.get_unverified_header` raises `DecodeError`) or parses to a
`JwtToken`. -/
inductive TokenInput where
  | malformed
  | wellFormed (t : JwtToken)
deriving DecidableEq, Repr

/-- Configuration of `CognitoTokenVerifier.__init__`
(cognito_token_verifier.py lines 28-44). -/
structure CognitoTokenVerifier where
  user_pool_id : String
  app_client_id : String
  expected_resource : Option String
deriving DecidableEq, Repr

/-- `self.region = user_pool_id.split('_')[0]` (line 39). -/
def CognitoTokenVerifier.region (v : CognitoTokenVerifier) : String :=
  String.mk (v.user_pool_id.toList.takeWhile (fun ch => ch != '_'))

/-- `self.issuer` (line 43). -/
def CognitoTokenVerifier.issuer (v : CognitoTokenVerifier) : String :=
  "https://cognito-idp." ++ v.region ++ ".amazonaws.com/" ++ v.user_pool_id

/-- The `mcp.server.auth.provider.AccessToken` object built on success
(cognito_token_verifier.py lines 174-180). -/
structure AccessToken where
  token : String
  client_id : String
  scopes : List String
  expires_at : Option Int
  resource : Option String
deriving DecidableEq, Repr

/-- `CognitoTokenVerifier._verify_resource_binding`
(cognito_token_verifier.py lines 46-72): skip when `expected_resource` is falsy
(not configured); fail when the `aud` claim is falsy (absent or empty);
otherwise require `aud == expected_resource`. -/
def verifyResourceBinding (v : CognitoTokenVerifier) (p : Payload) : Bool :=
  if !(pyTruthy v.expected_resource) then true
  else if !(pyTruthy p.aud) then false
  else p.aud == v.expected_resource

/-- PyJWT expiry validation with leeway (`jwt.decode(..., leeway=300)` raises
`ExpiredSignatureError` when `exp <= now - leeway`); tokens without `exp` are
not checked. -/
def expCheckFails (leeway now : Int) (e? : Option Int) : Bool :=
  match e? with
  | some e => decide (e ≤ now - leeway)
  | none => false

/-- Failures `jwt.decode` can raise in `verify_token`; every one is an
`InvalidTokenError` (or its subclass `ExpiredSignatureError`) and is caught at
lines 182-187. -/
inductive JwtDecodeError where
  | invalidSignature
  | expiredSignature
  | invalidIssuer
  | audienceMismatch
deriving DecidableEq, Repr

/-- The `jwt.decode(token, key, algorithms=['RS256'], issuer=..., leeway=300,
...)` calls at lines 119-126, 134-141 and 152-159: verify the signature against
`key`, the expiry with leeway, and the issuer claim; when an `audience` is
supplied (the id-token call) the `aud` claim must equal it, otherwise
(`options={"verify_aud": False}`) `aud` is not checked.  On success the claims
are returned unchanged. -/
def jwtDecode (key : Nat) (issuer : String) (leeway : Int) (audience : Option String)
    (now : Int) (t : JwtToken) : Except JwtDecodeError Payload :=
  if t.signedBy ≠ key then .error .invalidSignature
  else if expCheckFails leeway now t.payload.exp then .error .expiredSignature
  else if t.payload.iss ≠ some issuer then .error .invalidIssuer
  else
    match audience with
    | none => .ok t.payload
    | some a => if t.payload.aud = some a then .ok t.payload else .error .audienceMismatch

/-- Split a character list at every character satisfying `p`. -/
def splitWhen (p : Char → Bool) : List Char → List (List Char)
  | [] => [[]]
  | x :: xs =>
    let r := splitWhen p xs
    if p x then [] :: r
    else
      match r with
      | [] => [[x]]
      | y :: ys => (x :: y) :: ys

/-- Python `str.split()` with no argument, as used on the `scope` claim (line
165): split on whitespace and drop empty pieces. -/
def pySplit (s : String) : List String :=
  ((splitWhen Char.isWhitespace s.toList).filter (fun piece => !piece.isEmpty)).map String.mk

/-- The key set available to one `verify_token` call (lines 86-89): the cache
when already populated, otherwise the result of fetching the JWKS URL —
`Except.error` meaning the `requests` call (or its JSON decoding) raised. -/
def jwksOf (cache : Option (List JWK)) (fetch : Except Unit (List JWK)) :
    Except Unit (List JWK) :=
  match cache with
  | some ks => .ok ks
  | none => fetch

/-- The `kid` lookup loop over `self._jwks_cache['keys']` (lines 95-100):
the first entry whose `kid` equals the token header's `kid` yields the key;
a missing header `kid` (`None`) matches no entry. -/
def findKey (ks : List JWK) (kid : Option String) : Option Nat :=
  (ks.find? fun k => some k.kid == kid).map (·.keyId)

/-- Python `' '.join(...)`-style check `'openid' not in token_scopes` plus the
construction of the result (lines 164-180), shared by the access- and id-token
branches: require the `openid` scope, then build the `AccessToken` with
`client_id = payload.get('client_id', app_client_id)`, `expires_at =
payload.get('exp')` and `resource = payload.get('aud') if token_use == 'access'
else None`. -/
def buildResult (v : CognitoTokenVerifier) (t : JwtToken) (p : Payload)
    (isAccess : Bool) : Option AccessToken :=
  let token_scopes := pySplit (p.scope.getD "")
  if !(token_scopes.contains "openid") then none
  else some ⟨t.raw, p.client_id.getD v.app_client_id, token_scopes, p.exp,
    if isAccess then p.aud else none⟩

/-- `CognitoTokenVerifier.verify_token` (cognito_token_verifier.py lines
74-190).  Parameters beyond the verifier configuration are the pieces of state
and environment the call reads: the JWKS cache, the outcome a fetch would have,
the current time (`int(time.time())` inside PyJWT), and the token.  Every
failure path of the source — caught exception or explicit `return None` —
returns `none`. -/
def verifyToken (v : CognitoTokenVerifier) (cache : Option (List JWK))
    (fetch : Except Unit (List JWK)) (now : Int) (input : TokenInput) :
    Option AccessToken :=
  match jwksOf cache fetch with
  | .error _ => none
  | .ok ks =>
    match input with
    | .malformed => none
    | .wellFormed t =>
      match findKey ks t.kid with
      | none => none
      | some key =>
        if t.payload.token_use = some "access" then
          match jwtDecode key v.issuer 300 none now t with
          | .error _ => none
          | .ok payload =>
            if t.payload.aud.isSome && !(verifyResourceBinding v payload) then none
            else if payload.client_id ≠ some v.app_client_id then none
            else buildResult v t payload true
        else if t.payload.token_use = some "id" then
          match jwtDecode key v.issuer 300 (some v.app_client_id) now t with
          | .error _ => none
          | .ok payload => buildResult v t payload false
        else none

/-- The failure taxonomy of `verify_token`: each constructor corresponds to one
distinct log message of a failure path (lines 102-104, 129-131, 146-148,
160-162, 166-168, 182-190).  These reasons exist only in the logs; the caller
sees `None`. -/
inductive VerificationFailure where
  | jwksFetchFailed
  | malformedToken
  | keyNotFound
  | decodeFailed (e : JwtDecodeError)
  | resourceMismatch
  | clientIdMismatch
  | unknownTokenUse (u : Option String)
  | missingScope
deriving DecidableEq, Repr

/-- `buildResult` refined with its failure reason. -/
def buildResultE (v : CognitoTokenVerifier) (t : JwtToken) (p : Payload)
    (isAccess : Bool) : Except VerificationFailure AccessToken :=
  let token_scopes := pySplit (p.scope.getD "")
  if !(token_scopes.contains "openid") then .error .missingScope
  else .ok ⟨t.raw, p.client_id.getD v.app_client_id, token_scopes, p.exp,
    if isAccess then p.aud else none⟩

/-- `verify_token` refined with the reason of each failure path — the
information the source sends to `logger.error` before collapsing the outcome to
`None`. -/
def verifyTokenE (v : CognitoTokenVerifier) (cache : Option (List JWK))
    (fetch : Except Unit (List JWK)) (now : Int) (input : TokenInput) :
    Except VerificationFailure AccessToken :=
  match jwksOf cache fetch with
  | .error _ => .error .jwksFetchFailed
  | .ok ks =>
    match input with
    | .malformed => .error .malformedToken
    | .wellFormed t =>
      match findKey ks t.kid with
      | none => .error .keyNotFound
      | some key =>
        if t.payload.token_use = some "access" then
          match jwtDecode key v.issuer 300 none now t with
          | .error e => .error (.decodeFailed e)
          | .ok payload =>
            if t.payload.aud.isSome && !(verifyResourceBinding v payload) then
              .error .resourceMismatch
            else if payload.client_id ≠ some v.app_client_id then
              .error .clientIdMismatch
            else buildResultE v t payload true
        else if t.payload.token_use = some "id" then
          match jwtDecode key v.issuer 300 (some v.app_client_id) now t with
          | .error e => .error (.decodeFailed e)
          | .ok payload => buildResultE v t payload false
        else .error (.unknownTokenUse t.payload.token_use)

/-! ## Token introspection endpoint (`local/auth_server.py`) -/

/-- A value in a Starlette form: either a text field or an uploaded file part
(the `isinstance(token, str)` check at auth_server.py line 130 distinguishes
them). -/
inductive FormValue where
  | str (s : String)
  | uploadFile
deriving DecidableEq, Repr

/-- `form.get(k)`: the value of the first field named `k`, or `None`. -/
def formGet (form : List (String × FormValue)) (k : String) : Option FormValue :=
  (form.find? fun p => p.1 == k).map (·.2)

/-- The `mcp` `AccessToken` record held in the provider's token store, whose
fields the introspection response echoes (auth_server.py lines 138-148). -/
structure StoredAccessToken where
  client_id : String
  scopes : List String
  expires_at : Option Int
  resource : Option String
deriving DecidableEq, Repr

/-- Modelled from the spec: `SimpleOAuthProvider.load_access_token` is defined
in `simple_auth_provider.py`, which `auth_server.py` imports but which is
absent from the sources.  Spec §4.4: the provider persists issued tokens keyed
by token value and `/introspect` looks the token value up; spec §3
(`IssuedToken`): `active` flips to false on expiry and introspection consults
only active tokens. -/
def loadAccessToken (store : List (String × StoredAccessToken)) (now : Int)
    (token : String) : Option StoredAccessToken :=
  match (store.find? fun p => p.1 == token).map (·.2) with
  | none => none
  | some a =>
    match a.expires_at with
    | some e => if e < now then none else some a
    | none => some a

/-- `' '.join(access_token.scopes)` (auth_server.py line 142). -/
def spaceJoin : List String → String
  | [] => ""
  | [s] => s
  | s :: rest => s ++ " " ++ spaceJoin rest

/-- The JSON body `introspect_handler` returns: `{"active": false}`, or the
RFC 7662 shape with `active: true`. -/
inductive IntrospectBody where
  | inactive
  | activeBody (client_id : String) (scope : String) (exp : Option Int)
      (iat : Int) (token_type : String) (aud : Option String)
deriving DecidableEq, Repr

/-- `introspect_handler` (auth_server.py lines 121-148): read the `token` form
field; answer 400 `{"active": false}` when it is missing, falsy (the empty
string) or not a string; answer 200 `{"active": false}` when the store lookup
fails; otherwise answer 200 with the stored token's data, `iat` being
`int(time.time())` and `token_type` `"Bearer"`.  Returns (HTTP status, body). -/
def introspectHandler (store : List (String × StoredAccessToken)) (now : Int)
    (form : List (String × FormValue)) : Nat × IntrospectBody :=
  match formGet form "token" with
  | none => (400, .inactive)
  | some .uploadFile => (400, .inactive)
  | some (.str s) =>
    if s = "" then (400, .inactive)
    else
      match loadAccessToken store now s with
      | none => (200, .inactive)
      | some a =>
        (200, .activeBody a.client_id (spaceJoin a.scopes) a.expires_at now "Bearer" a.resource)

/-! ## Concrete fixtures used by counterexamples and witnesses -/

/-- A verifier configured without `expected_resource`. -/
def vEx : CognitoTokenVerifier := ⟨"us-west-2_EXAMPLE", "client-123", none⟩

/-- A verifier configured with an RFC 8707 expected resource. -/
def vRes : CognitoTokenVerifier :=
  ⟨"us-west-2_EXAMPLE", "client-123", some "https://api.example.com/mcp"⟩

/-- A one-key cached key set. -/
def jwksEx : List JWK := [⟨"kid-1", 1⟩]

/-- An access token signed by the cached key, unexpired at time 0, with
matching client id and the `openid` scope. -/
def tokEx : JwtToken :=
  ⟨"raw-token", some "kid-1",
    ⟨some "access", none, some "client-123", some "openid profile", some 5000, some vEx.issuer⟩, 1⟩

/-- An access token whose `aud` differs from `vRes.expected_resource`. -/
def tokBadAud : JwtToken :=
  ⟨"raw-token-aud", some "kid-1",
    ⟨some "access", some "https://other.example.com/mcp", some "client-123",
      some "openid", some 5000, some vEx.issuer⟩, 1⟩

/-- An otherwise-valid access token whose scope lacks `openid`. -/
def tokNoOpenid : JwtToken :=
  ⟨"raw-token-scope", some "kid-1",
    ⟨some "access", none, some "client-123", some "profile", some 5000, some vEx.issuer⟩, 1⟩

/-- An otherwise-valid access token with a given `exp` claim. -/
def tokWithExp (e : Int) : JwtToken :=
  ⟨"raw-token-exp", some "kid-1",
    ⟨some "access", none, some "client-123", some "openid", some e, some vEx.issuer⟩, 1⟩

/-- A token whose header `kid` is absent from `jwksEx`, though its signature is
valid under the cached key. -/
def tokUnknownKid : JwtToken :=
  ⟨"raw-token-kid", some "kid-rotated",
    ⟨some "access", none, some "client-123", some "openid", some 5000, some vEx.issuer⟩, 1⟩

/-! ## Helper lemmas -/

theorem parseQsl_mem_value_ne_empty {q : List Char} {pr : String × String}
    (h : pr ∈ parseQsl q) : pr.2 ≠ "" := by
  unfold parseQsl at h
  rw [List.mem_filterMap] at h
  obtain ⟨nv, _, hnv⟩ := h
  rcases hbr : breakAtChar '=' nv with _ | ⟨name, value⟩
  · rw [hbr] at hnv; cases hnv
  · rw [hbr] at hnv
    by_cases hv : value.isEmpty
    · simp [hv] at hnv
    · simp [hv] at hnv
      cases value with
      | nil => simp at hv
      | cons a as =>
        rw [← hnv]
        intro hcontra
        exact absurd (congrArg String.data hcontra) (by simp)

theorem getFirst_value_ne_empty {q : List Char} {k v : String}
    (h : getFirst (parseQsl q) k = some v) : v ≠ "" := by
  unfold getFirst at h
  rcases hf : (parseQsl q).find? (fun p => p.1 == k) with _ | pr
  · rw [hf] at h; cases h
  · rw [hf] at h
    have hmem := List.mem_of_find?_eq_some hf
    have hne := parseQsl_mem_value_ne_empty hmem
    simp at h
    exact h ▸ hne

theorem doGet_code {cd : CallbackData} {path : String} {c : String}
    (h : getFirst (parseQsl (queryChars path.toList)) "code" = some c) :
    doGet cd path =
      (⟨some c, getFirst (parseQsl (queryChars path.toList)) "state", cd.error⟩, 200) := by
  unfold doGet
  rw [h]

theorem doGet_error {cd : CallbackData} {path : String} {r : String}
    (hc : getFirst (parseQsl (queryChars path.toList)) "code" = none)
    (he : getFirst (parseQsl (queryChars path.toList)) "error" = some r) :
    doGet cd path = (⟨cd.authorization_code, cd.state, some r⟩, 400) := by
  unfold doGet
  rw [hc, he]

theorem waitStep_code {d : CallbackData} {c : String}
    (hc : d.authorization_code = some c) (hne : c ≠ "") :
    waitStep d = some (.code c) := by
  unfold waitStep
  simp [pyTruthy, hc, hne]

theorem waitStep_error {d : CallbackData} {r : String}
    (hcode : d.authorization_code = none) (he : d.error = some r) (hne : r ≠ "") :
    waitStep d = some (.oauthError r) := by
  unfold waitStep
  simp [pyTruthy, hcode, he, hne]

theorem waitForCallback_first {n : Nat} {hist : Nat → CallbackData} {r : WaitResult}
    (h : waitStep (hist 0) = some r) :
    waitForCallback (n + 1) hist = r := by
  unfold waitForCallback
  rw [h]

theorem waitForCallback_timeout_of (fuel : Nat) :
    ∀ (hist : Nat → CallbackData), (∀ i, i < fuel → waitStep (hist i) = none) →
      waitForCallback fuel hist = .timeout := by
  induction fuel with
  | zero => intro hist _; rfl
  | succ n ih =>
    intro hist h
    show (match waitStep (hist 0) with
          | some r => r
          | none => waitForCallback n (fun i => hist (i + 1))) = .timeout
    rw [h 0 (Nat.succ_pos n)]
    exact ih (fun i => hist (i + 1)) (fun i hi => h (i + 1) (Nat.succ_lt_succ hi))

/-! ## Claim theorems: callback listener and flow -/

/-- C1 counterexample: the claim says a second, delayed callback with a
different code is ignored and leaves the stored code and state unchanged; the
code at client.py lines 91-94 overwrites unconditionally.  After a first
callback stored `code=FIRST, state=S`, a second callback with `code=SECOND`
leaves the stored code `SECOND` (not `FIRST`) and resets the stored state. -/
theorem c1_counterexample :
    ((doGet (doGet initialCallbackData "/callback?code=FIRST&state=S").1
        "/callback?code=SECOND").1).authorization_code = some "SECOND"
    ∧ ((doGet initialCallbackData "/callback?code=FIRST&state=S").1).authorization_code
        = some "FIRST"
    ∧ ((doGet (doGet initialCallbackData "/callback?code=FIRST&state=S").1
        "/callback?code=SECOND").1).state = none := by
  exact ⟨by decide, by decide, by decide⟩

/-- C1 (amended): handling any GET callback whose query carries a (non-blank)
`code` parameter is accepted with HTTP 200 and overwrites the stored
authorization code and state with the values of that request — last-writer-wins,
regardless of whether a result was already populated. -/
theorem c1_second_callback_overwrites :
    ∀ (cd : CallbackData) (path : String) (c : String),
      getFirst (parseQsl (queryChars path.toList)) "code" = some c →
      (doGet cd path).2 = 200
        ∧ (doGet cd path).1.authorization_code = some c
        ∧ (doGet cd path).1.state = getFirst (parseQsl (queryChars path.toList)) "state" := by
  intro cd path c h
  rw [doGet_code h]
  exact ⟨rfl, rfl, rfl⟩

/-- C1 witness: the amended theorem applied to a listener state already
populated by a first callback. -/
theorem c1_witness :
    (doGet (doGet initialCallbackData "/callback?code=FIRST&state=S").1
        "/callback?code=OTHER").2 = 200
    ∧ (doGet (doGet initialCallbackData "/callback?code=FIRST&state=S").1
        "/callback?code=OTHER").1.authorization_code = some "OTHER"
    ∧ (doGet (doGet initialCallbackData "/callback?code=FIRST&state=S").1
        "/callback?code=OTHER").1.state
        = getFirst (parseQsl (queryChars "/callback?code=OTHER".toList)) "state" :=
  c1_second_callback_overwrites (doGet initialCallbackData "/callback?code=FIRST&state=S").1
    "/callback?code=OTHER" "OTHER" (by decide)

/-- C6 counterexample: the claim says `stop()` runs on every exit path of the
orchestrator's flow; in the scenario where `connect` raises before the OAuth
flow ever awaits `callback_handler` (e.g. the transport connection at client.py
line 316 fails), no `stop()` event occurs — the `except` at lines 323-326 only
prints. -/
theorem c6_counterexample :
    FlowEvent.stopServer ∉ connectEvents ConnectScenario.failsBeforeCallback := by
  decide

/-- C6 (amended): `stop()` executes on every exit path of the callback handler
— normal return, callback error and timeout alike (the `try`/`finally` at
client.py lines 253-257) — and hence on every `connect` run in which the OAuth
flow reaches the callback wait; but when `connect` fails before the callback
handler is invoked, `stop()` is not executed. -/
theorem c6_stop_on_handler_exit_paths :
    (∀ o : CallbackOutcome, FlowEvent.stopServer ∈ callbackHandlerEvents o)
    ∧ (∀ o : CallbackOutcome,
        FlowEvent.stopServer ∈ connectEvents (.authFlowRuns o))
    ∧ FlowEvent.stopServer ∉ connectEvents ConnectScenario.failsBeforeCallback := by
  refine ⟨fun o => ?_, fun o => ?_, by decide⟩ <;>
    cases o <;> simp [callbackHandlerEvents, connectEvents]

/-- C7: `wait_for_callback` returns the stored authorization code (the state
being available through `get_state`) when a callback stored a code; raises the
OAuth error carrying the stored reason when a callback stored an error — in
which case the orchestrator never performs a token exchange; and raises the
timeout error when neither arrives within the poll budget. -/
theorem c7_wait_for_callback :
    (∀ (d : CallbackData) (path : String) (c : String) (fuel : Nat),
        getFirst (parseQsl (queryChars path.toList)) "code" = some c →
        waitForCallback (fuel + 1) (fun _ => (doGet d path).1) = .code c
          ∧ getState (doGet d path).1
              = getFirst (parseQsl (queryChars path.toList)) "state")
    ∧ (∀ (path : String) (r : String) (fuel : Nat),
        getFirst (parseQsl (queryChars path.toList)) "code" = none →
        getFirst (parseQsl (queryChars path.toList)) "error" = some r →
        waitForCallback (fuel + 1) (fun _ => (doGet initialCallbackData path).1)
            = .oauthError r
          ∧ FlowEvent.tokenExchange ∉ connectEvents (.authFlowRuns (.cbError r)))
    ∧ (∀ (fuel : Nat) (hist : Nat → CallbackData),
        (∀ i, i < fuel → waitStep (hist i) = none) →
        waitForCallback fuel hist = .timeout) := by
  refine ⟨?_, ?_, waitForCallback_timeout_of⟩
  · intro d path c fuel h
    rw [doGet_code h]
    exact ⟨waitForCallback_first (waitStep_code rfl (getFirst_value_ne_empty h)), rfl⟩
  · intro path r fuel hc he
    rw [doGet_error hc he]
    refine ⟨waitForCallback_first (waitStep_error rfl rfl (getFirst_value_ne_empty he)), ?_⟩
    simp [connectEvents, callbackHandlerEvents]

/-- C7 witness: the three cases at concrete inputs — a callback with
`code=XYZ&state=abc123`, a callback with `error=access_denied`, and no callback
at all. -/
theorem c7_witness :
    (waitForCallback 5 (fun _ => (doGet initialCallbackData
        "/callback?code=XYZ&state=abc123").1) = .code "XYZ"
      ∧ getState (doGet initialCallbackData "/callback?code=XYZ&state=abc123").1
          = getFirst (parseQsl (queryChars "/callback?code=XYZ&state=abc123".toList)) "state")
    ∧ (waitForCallback 5 (fun _ => (doGet initialCallbackData
        "/callback?error=access_denied").1) = .oauthError "access_denied"
      ∧ FlowEvent.tokenExchange ∉ connectEvents (.authFlowRuns (.cbError "access_denied")))
    ∧ waitForCallback 3 (fun _ => initialCallbackData) = .timeout :=
  ⟨c7_wait_for_callback.1 initialCallbackData "/callback?code=XYZ&state=abc123" "XYZ" 4
      (by decide),
   c7_wait_for_callback.2.1 "/callback?error=access_denied" "access_denied" 4
      (by decide) (by decide),
   c7_wait_for_callback.2.2 3 (fun _ => initialCallbackData) (fun i _ => rfl)⟩

/-- C10 counterexample: the claim says a callback with an empty `code` value is
stored by the listener; in fact `parse_qs` (default `keep_blank_values=False`)
drops the blank field, so the handler takes the 404 branch and stores
nothing. -/
theorem c10_counterexample :
    (doGet initialCallbackData "/callback?code=").1.authorization_code = none
    ∧ (doGet initialCallbackData "/callback?code=").2 = 404 := by
  exact ⟨by decide, by decide⟩

/-- C10 (amended): a callback with an empty `code` value is not stored at all —
query parsing drops blank values, so the handler answers 404 and leaves the
result untouched; consequently an empty code is never returned and the wait
runs to the full timeout; and even if an empty code (or empty error) were
stored directly, the truthiness guards of `wait_for_callback` would skip it and
the call would still time out. -/
theorem c10_empty_code_never_received :
    (∀ cd : CallbackData, doGet cd "/callback?code=" = (cd, 404))
    ∧ (∀ fuel : Nat,
        waitForCallback fuel (fun _ => ⟨some "", none, none⟩) = .timeout)
    ∧ (∀ fuel : Nat,
        waitForCallback fuel (fun _ => ⟨none, none, some ""⟩) = .timeout) := by
  refine ⟨fun cd => rfl, fun fuel => ?_, fun fuel => ?_⟩ <;>
    exact waitForCallback_timeout_of fuel _ (fun i _ => by decide)

/-! ## Helper lemmas: token verifier -/

theorem jwtDecode_ok_of {key : Nat} {issuer : String} {leeway now : Int} {t : JwtToken}
    (hsig : t.signedBy = key)
    (hexp : expCheckFails leeway now t.payload.exp = false)
    (hiss : t.payload.iss = some issuer) :
    jwtDecode key issuer leeway none now t = .ok t.payload := by
  unfold jwtDecode
  simp [hsig, hexp, hiss]

theorem jwtDecode_ok_inv {key : Nat} {issuer : String} {leeway : Int}
    {audience : Option String} {now : Int} {t : JwtToken} {p : Payload}
    (h : jwtDecode key issuer leeway audience now t = .ok p) :
    p = t.payload ∧ t.signedBy = key
      ∧ expCheckFails leeway now t.payload.exp = false
      ∧ t.payload.iss = some issuer := by
  unfold jwtDecode at h
  by_cases h1 : t.signedBy = key
  · by_cases h2 : expCheckFails leeway now t.payload.exp = true
    · simp [h1, h2] at h
    · by_cases h3 : t.payload.iss = some issuer
      · refine ⟨?_, h1, by simpa using h2, h3⟩
        simp [h1, h2, h3] at h
        cases audience with
        | none => simpa using h.symm
        | some a =>
          by_cases h4 : t.payload.aud = some a
          · simp [h4] at h; exact h.symm
          · simp [h4] at h
      · simp [h1, h2, h3] at h
  · simp [h1] at h

/-- The successful access-token path of `verify_token`: key found and matching
the signer, `token_use = access`, expiry within leeway, issuer matching,
resource binding passing whenever an `aud` claim is present, client id
matching, and the `openid` scope present. -/
theorem verifyToken_access_ok (v : CognitoTokenVerifier) (cache : Option (List JWK))
    (fetch : Except Unit (List JWK)) (now : Int) (t : JwtToken) (ks : List JWK)
    (hks : jwksOf cache fetch = .ok ks)
    (hkey : findKey ks t.kid = some t.signedBy)
    (huse : t.payload.token_use = some "access")
    (hexp : expCheckFails 300 now t.payload.exp = false)
    (hiss : t.payload.iss = some v.issuer)
    (hres : t.payload.aud.isSome = true → verifyResourceBinding v t.payload = true)
    (hcid : t.payload.client_id = some v.app_client_id)
    (hscope : (pySplit (t.payload.scope.getD "")).contains "openid" = true) :
    verifyToken v cache fetch now (.wellFormed t) =
      some ⟨t.raw, v.app_client_id, pySplit (t.payload.scope.getD ""),
        t.payload.exp, t.payload.aud⟩ := by
  have hdec : jwtDecode t.signedBy v.issuer 300 none now t = .ok t.payload :=
    jwtDecode_ok_of rfl hexp hiss
  have hcond : (t.payload.aud.isSome && !(verifyResourceBinding v t.payload)) = false := by
    rcases haud : t.payload.aud with _ | a
    · simp [haud]
    · have := hres (by simp [haud])
      simp [haud, this]
  simp [verifyToken, hks, hkey, huse, hdec, hcond, hcid, buildResult, hscope]
  simpa using hscope

/-- Any well-formed token with an `exp` claim at or beyond the 300-second
leeway fails verification, on every path. -/
theorem verifyToken_expired (v : CognitoTokenVerifier) (cache : Option (List JWK))
    (fetch : Except Unit (List JWK)) (now : Int) (t : JwtToken) (e : Int)
    (hexp : t.payload.exp = some e) (hpast : e ≤ now - 300) :
    verifyToken v cache fetch now (.wellFormed t) = none := by
  have hfail : expCheckFails 300 now t.payload.exp = true := by
    rw [hexp]; simpa [expCheckFails] using hpast
  have hdecode : ∀ (key : Nat) (audience : Option String),
      ∃ er, jwtDecode key v.issuer 300 audience now t = .error er := by
    intro key audience
    unfold jwtDecode
    by_cases hk : t.signedBy = key
    · exact ⟨.expiredSignature, by simp [hk, hfail]⟩
    · exact ⟨.invalidSignature, by simp [hk]⟩
  rcases hjw : jwksOf cache fetch with u | ks
  · simp [verifyToken, hjw]
  · rcases hk : findKey ks t.kid with _ | key
    · simp [verifyToken, hjw, hk]
    · by_cases hacc : t.payload.token_use = some "access"
      · obtain ⟨er, her⟩ := hdecode key none
        simp [verifyToken, hjw, hk, hacc, her]
      · by_cases hid : t.payload.token_use = some "id"
        · obtain ⟨er, her⟩ := hdecode key (some v.app_client_id)
          simp [verifyToken, hjw, hk, hacc, hid, her]
        · simp [verifyToken, hjw, hk, hacc, hid]

/-! ## Claim theorems: token verifier -/

/-- C2: with `expected_resource` configured, an access token carrying an `aud`
claim different from it is rejected; the same otherwise-valid token with no
`aud` claim at all is accepted (resource binding is opt-in); and with
`expected_resource` unset the resource-binding check passes every payload
unconditionally. -/
theorem c2_resource_binding :
    (∀ (v : CognitoTokenVerifier) (cache : Option (List JWK))
        (fetch : Except Unit (List JWK)) (now : Int) (t : JwtToken),
        pyTruthy v.expected_resource = true →
        t.payload.token_use = some "access" →
        t.payload.aud.isSome = true →
        t.payload.aud ≠ v.expected_resource →
        verifyToken v cache fetch now (.wellFormed t) = none)
    ∧ (∀ (v : CognitoTokenVerifier) (cache : Option (List JWK))
        (fetch : Except Unit (List JWK)) (now : Int) (t : JwtToken) (ks : List JWK),
        jwksOf cache fetch = .ok ks →
        findKey ks t.kid = some t.signedBy →
        t.payload.token_use = some "access" →
        expCheckFails 300 now t.payload.exp = false →
        t.payload.iss = some v.issuer →
        t.payload.client_id = some v.app_client_id →
        (pySplit (t.payload.scope.getD "")).contains "openid" = true →
        t.payload.aud = none →
        (verifyToken v cache fetch now (.wellFormed t)).isSome = true)
    ∧ (∀ (v : CognitoTokenVerifier) (p : Payload),
        v.expected_resource = none → verifyResourceBinding v p = true) := by
  refine ⟨?_, ?_, ?_⟩
  · intro v cache fetch now t her huse haud hne
    have hbind : verifyResourceBinding v t.payload = false := by
      unfold verifyResourceBinding
      rw [her]
      rcases ha : t.payload.aud with _ | a
      · simp [ha] at haud
      · rw [ha] at hne
        by_cases hae : a = ""
        · simp [pyTruthy, hae]
        · simp [pyTruthy, hae]
          simpa using hne
    rcases hjw : jwksOf cache fetch with u | ks
    · simp [verifyToken, hjw]
    · rcases hk : findKey ks t.kid with _ | key
      · simp [verifyToken, hjw, hk]
      · rcases hd : jwtDecode key v.issuer 300 none now t with er | p
        · simp [verifyToken, hjw, hk, huse, hd]
        · have hp : p = t.payload := (jwtDecode_ok_inv hd).1
          simp [verifyToken, hjw, hk, huse, hd, hp, haud, hbind]
  · intro v cache fetch now t ks hks hkey huse hexp hiss hcid hscope haud
    rw [verifyToken_access_ok v cache fetch now t ks hks hkey huse hexp hiss
      (fun h => by rw [haud] at h; cases h) hcid hscope]
    rfl
  · intro v p hnone
    unfold verifyResourceBinding
    simp [hnone, pyTruthy]

/-- C2 witness: with `expected_resource = "https://api.example.com/mcp"`, the
token with `aud = "https://other.example.com/mcp"` is rejected, the otherwise
identical token without `aud` is accepted, and an unset `expected_resource`
skips the binding check. -/
theorem c2_witness :
    verifyToken vRes (some jwksEx) (.ok jwksEx) 0 (.wellFormed tokBadAud) = none
    ∧ (verifyToken vRes (some jwksEx) (.ok jwksEx) 0 (.wellFormed tokEx)).isSome = true
    ∧ verifyResourceBinding vEx ⟨some "access", some "https://other.example.com/mcp",
        none, none, none, none⟩ = true :=
  ⟨c2_resource_binding.1 vRes (some jwksEx) (.ok jwksEx) 0 tokBadAud
      (by decide) (by decide) (by decide) (by decide),
   c2_resource_binding.2.1 vRes (some jwksEx) (.ok jwksEx) 0 tokEx jwksEx
      rfl (by decide) (by decide) (by decide) (by decide) (by decide)
      (by decide) (by decide),
   c2_resource_binding.2.2 vEx _ rfl⟩

/-- C3 counterexample: a token signed by a key present in the cached key set,
with `token_use = access`, unexpired at `now = 0`, and with matching client id
— but whose scope claim lacks `openid` — is rejected, while the claim promises
a non-null result for every such token. -/
theorem c3_counterexample :
    (findKey jwksEx tokNoOpenid.kid = some tokNoOpenid.signedBy
      ∧ tokNoOpenid.payload.token_use = some "access"
      ∧ expCheckFails 300 0 tokNoOpenid.payload.exp = false
      ∧ tokNoOpenid.payload.client_id = some vEx.app_client_id)
    ∧ verifyToken vEx (some jwksEx) (.ok jwksEx) 0 (.wellFormed tokNoOpenid) = none := by
  exact ⟨⟨by decide, by decide, by decide, by decide⟩, by decide⟩

/-- C3 (amended): for every token signed by a key present in the cached key
set, with `token_use = access`, unexpired (within leeway), issuer matching,
resource binding satisfied whenever an `aud` claim is present, client id equal
to the configured app client id, and scope containing `openid`: `verify`
returns a non-null `AccessToken` whose client id matches the token's client id
claim and whose scopes contain `openid`. -/
theorem c3_access_token_accepted :
    ∀ (v : CognitoTokenVerifier) (cache : Option (List JWK))
      (fetch : Except Unit (List JWK)) (now : Int) (t : JwtToken) (ks : List JWK),
      jwksOf cache fetch = .ok ks →
      findKey ks t.kid = some t.signedBy →
      t.payload.token_use = some "access" →
      expCheckFails 300 now t.payload.exp = false →
      t.payload.iss = some v.issuer →
      (t.payload.aud.isSome = true → verifyResourceBinding v t.payload = true) →
      t.payload.client_id = some v.app_client_id →
      (pySplit (t.payload.scope.getD "")).contains "openid" = true →
      ∃ info, verifyToken v cache fetch now (.wellFormed t) = some info
        ∧ t.payload.client_id = some info.client_id
        ∧ "openid" ∈ info.scopes := by
  intro v cache fetch now t ks hks hkey huse hexp hiss hres hcid hscope
  refine ⟨_, verifyToken_access_ok v cache fetch now t ks hks hkey huse hexp hiss
    hres hcid hscope, hcid, ?_⟩
  simpa using hscope

/-- C3 witness: the amended theorem at a concrete signed, unexpired,
`openid`-scoped access token. -/
theorem c3_witness :
    ∃ info, verifyToken vEx (some jwksEx) (.ok jwksEx) 0 (.wellFormed tokEx) = some info
      ∧ tokEx.payload.client_id = some info.client_id
      ∧ "openid" ∈ info.scopes :=
  c3_access_token_accepted vEx (some jwksEx) (.ok jwksEx) 0 tokEx jwksEx
    rfl (by decide) (by decide) (by decide) (by decide) (by decide)
    (by decide) (by decide)

/-- C4: expiry with the 300-second leeway — an `exp` more than 300 s in the
past always fails; an otherwise-valid token with `exp` 100 s in the past
succeeds; an `exp` 400 s in the past fails; and an `AccessToken` is never
returned once the leeway-adjusted expiry has passed. -/
theorem c4_expiry_leeway :
    (∀ (v : CognitoTokenVerifier) (cache : Option (List JWK))
        (fetch : Except Unit (List JWK)) (now : Int) (t : JwtToken) (e : Int),
        t.payload.exp = some e → now - e > 300 →
        verifyToken v cache fetch now (.wellFormed t) = none)
    ∧ (∀ (v : CognitoTokenVerifier) (cache : Option (List JWK))
        (fetch : Except Unit (List JWK)) (now : Int) (t : JwtToken) (ks : List JWK),
        jwksOf cache fetch = .ok ks →
        findKey ks t.kid = some t.signedBy →
        t.payload.token_use = some "access" →
        t.payload.exp = some (now - 100) →
        t.payload.iss = some v.issuer →
        (t.payload.aud.isSome = true → verifyResourceBinding v t.payload = true) →
        t.payload.client_id = some v.app_client_id →
        (pySplit (t.payload.scope.getD "")).contains "openid" = true →
        (verifyToken v cache fetch now (.wellFormed t)).isSome = true)
    ∧ (∀ (v : CognitoTokenVerifier) (cache : Option (List JWK))
        (fetch : Except Unit (List JWK)) (now : Int) (t : JwtToken) (e : Int),
        t.payload.exp = some e → now - e ≥ 400 →
        verifyToken v cache fetch now (.wellFormed t) = none)
    ∧ (∀ (v : CognitoTokenVerifier) (cache : Option (List JWK))
        (fetch : Except Unit (List JWK)) (now : Int) (t : JwtToken)
        (info : AccessToken) (e : Int),
        verifyToken v cache fetch now (.wellFormed t) = some info →
        t.payload.exp = some e → now - e < 300) := by
  refine ⟨?_, ?_, ?_, ?_⟩
  · intro v cache fetch now t e hexp hpast
    exact verifyToken_expired v cache fetch now t e hexp (by omega)
  · intro v cache fetch now t ks hks hkey huse hexp hiss hres hcid hscope
    rw [verifyToken_access_ok v cache fetch now t ks hks hkey huse
      (by rw [hexp]; simp [expCheckFails]; omega) hiss hres hcid hscope]
    rfl
  · intro v cache fetch now t e hexp hpast
    exact verifyToken_expired v cache fetch now t e hexp (by omega)
  · intro v cache fetch now t info e hsome hexp
    by_contra hlt
    rw [verifyToken_expired v cache fetch now t e hexp (by omega)] at hsome
    cases hsome

/-- C4 witness: at `now = 500`, the token with `exp = 100` (400 s past) is
rejected, the token with `exp = 400` (100 s past) is accepted, and from its
acceptance the invariant yields `500 - 400 < 300`. -/
theorem c4_witness :
    verifyToken vEx (some jwksEx) (.ok jwksEx) 500 (.wellFormed (tokWithExp 100)) = none
    ∧ (verifyToken vEx (some jwksEx) (.ok jwksEx) 500
        (.wellFormed (tokWithExp 400))).isSome = true
    ∧ verifyToken vEx (some jwksEx) (.ok jwksEx) 500 (.wellFormed (tokWithExp 100)) = none
    ∧ ((500 : Int) - 400 < 300) :=
  ⟨c4_expiry_leeway.1 vEx (some jwksEx) (.ok jwksEx) 500 (tokWithExp 100) 100
      (by decide) (by decide),
   c4_expiry_leeway.2.1 vEx (some jwksEx) (.ok jwksEx) 500 (tokWithExp 400) jwksEx
      rfl (by decide) (by decide) (by decide) (by decide) (by decide)
      (by decide) (by decide),
   c4_expiry_leeway.2.2.1 vEx (some jwksEx) (.ok jwksEx) 500 (tokWithExp 100) 100
      (by decide) (by decide),
   c4_expiry_leeway.2.2.2 vEx (some jwksEx) (.ok jwksEx) 500 (tokWithExp 400)
      ⟨"raw-token-exp", "client-123", ["openid"], some 400, none⟩ 400
      (by decide) (by decide)⟩

/-- C8: a well-formed token whose header `kid` matches no entry of the key set
available to the call fails verification, whatever its other claims and
whatever key actually signed it. -/
theorem c8_kid_not_found :
    ∀ (v : CognitoTokenVerifier) (cache : Option (List JWK))
      (fetch : Except Unit (List JWK)) (now : Int) (t : JwtToken) (ks : List JWK),
      jwksOf cache fetch = .ok ks →
      findKey ks t.kid = none →
      verifyToken v cache fetch now (.wellFormed t) = none := by
  intro v cache fetch now t ks hks hkid
  simp [verifyToken, hks, hkid]

/-- C8 witness: a token whose `kid` names a rotated key absent from the cache,
although its signature is valid under the cached key (`signedBy = 1`), is
rejected. -/
theorem c8_witness :
    verifyToken vEx (some jwksEx) (.ok jwksEx) 0 (.wellFormed tokUnknownKid) = none :=
  c8_kid_not_found vEx (some jwksEx) (.ok jwksEx) 0 tokUnknownKid jwksEx
    rfl (by decide)

/-- C9: `verify_token` is total — for every verifier configuration, cache
state, fetch outcome, clock and input it returns an `Option AccessToken`, and
its result is exactly the collapse of the reason-annotated refinement
`verifyTokenE`: every distinct failure reason (malformed token, fetch failure,
unknown kid, bad signature, expiry, issuer or audience mismatch, unknown
token kind, client-id mismatch, resource mismatch, missing scope) maps to the
single result `none`, indistinguishable to the caller. -/
theorem c9_failures_collapse_to_none :
    ∀ (v : CognitoTokenVerifier) (cache : Option (List JWK))
      (fetch : Except Unit (List JWK)) (now : Int) (input : TokenInput),
      verifyToken v cache fetch now input
        = (verifyTokenE v cache fetch now input).toOption := by
  intro v cache fetch now input
  have hbuild : ∀ (t : JwtToken) (p : Payload) (b : Bool),
      buildResult v t p b = (buildResultE v t p b).toOption := by
    intro t p b
    unfold buildResult buildResultE
    by_cases h : "openid" ∈ pySplit (p.scope.getD "")
    · simp [h, Except.toOption]
    · simp [h, Except.toOption]
  unfold verifyToken verifyTokenE
  repeat' split
  all_goals first | rfl | apply hbuild

/-! ## Claim theorems: introspection endpoint -/

/-- C5 counterexample: the claim allows HTTP 400 only when the `token` field is
absent, and promises `{"active": false}` with HTTP 200 for any present but
unknown/invalid token value; yet for a form whose `token` field is present with
the empty-string value the handler answers HTTP 400 (`if not token` at
auth_server.py line 130 is true for `""`). -/
theorem c5_counterexample :
    formGet [("token", FormValue.str "")] "token" = some (.str "")
    ∧ (introspectHandler [] 0 [("token", FormValue.str "")]).1 = 400 := by
  exact ⟨rfl, rfl⟩

/-- C5 (amended): `POST /introspect` answers HTTP 400 `{"active": false}` when
the `token` form field is absent, empty, or not a string; HTTP 200
`{"active": false}` for any other token value not found (active) in the store;
and, for a token found in the store, HTTP 200 with `active` true, the stored
client id, the stored scopes joined by single spaces, the stored `exp`, `iat`
the current time, `token_type` `"Bearer"`, and `aud` the stored resource. -/
theorem c5_introspect_responses :
    (∀ (store : List (String × StoredAccessToken)) (now : Int)
        (form : List (String × FormValue)),
        formGet form "token" = none →
        introspectHandler store now form = (400, .inactive))
    ∧ (∀ (store : List (String × StoredAccessToken)) (now : Int)
        (form : List (String × FormValue)),
        formGet form "token" = some (.str "") →
        introspectHandler store now form = (400, .inactive))
    ∧ (∀ (store : List (String × StoredAccessToken)) (now : Int)
        (form : List (String × FormValue)),
        formGet form "token" = some .uploadFile →
        introspectHandler store now form = (400, .inactive))
    ∧ (∀ (store : List (String × StoredAccessToken)) (now : Int)
        (form : List (String × FormValue)) (s : String),
        formGet form "token" = some (.str s) → s ≠ "" →
        loadAccessToken store now s = none →
        introspectHandler store now form = (200, .inactive))
    ∧ (∀ (store : List (String × StoredAccessToken)) (now : Int)
        (form : List (String × FormValue)) (s : String) (a : StoredAccessToken),
        formGet form "token" = some (.str s) → s ≠ "" →
        loadAccessToken store now s = some a →
        introspectHandler store now form =
          (200, .activeBody a.client_id (spaceJoin a.scopes) a.expires_at now
            "Bearer" a.resource)) := by
  refine ⟨?_, ?_, ?_, ?_, ?_⟩
  · intro store now form h
    unfold introspectHandler
    rw [h]
  · intro store now form h
    unfold introspectHandler
    rw [h]
    simp
  · intro store now form h
    unfold introspectHandler
    rw [h]
  · intro store now form s h hs hload
    unfold introspectHandler
    rw [h]
    simp [hs, hload]
  · intro store now form s a h hs hload
    unfold introspectHandler
    rw [h]
    simp [hs, hload]

/-- C5 witness: the amended theorem at concrete forms — missing field, empty
value, file value, unknown token, and a stored token. -/
theorem c5_witness :
    introspectHandler [] 0 [] = (400, .inactive)
    ∧ introspectHandler [] 0 [("token", FormValue.str "")] = (400, .inactive)
    ∧ introspectHandler [] 0 [("token", FormValue.uploadFile)] = (400, .inactive)
    ∧ introspectHandler [] 0 [("token", FormValue.str "tok-unknown")] = (200, .inactive)
    ∧ introspectHandler [("tok-1", ⟨"client-123", ["user", "openid"], some 900,
          some "https://rs.example.com/mcp"⟩)] 10 [("token", FormValue.str "tok-1")]
        = (200, .activeBody "client-123" "user openid" (some 900) 10 "Bearer"
            (some "https://rs.example.com/mcp")) :=
  ⟨c5_introspect_responses.1 [] 0 [] rfl,
   c5_introspect_responses.2.1 [] 0 [("token", FormValue.str "")] rfl,
   c5_introspect_responses.2.2.1 [] 0 [("token", FormValue.uploadFile)] rfl,
   c5_introspect_responses.2.2.2.1 [] 0 [("token", FormValue.str "tok-unknown")]
     "tok-unknown" rfl (by decide) rfl,
   c5_introspect_responses.2.2.2.2
     [("tok-1", ⟨"client-123", ["user", "openid"], some 900, some "https://rs.example.com/mcp"⟩)]
     10 [("token", FormValue.str "tok-1")] "tok-1"
     ⟨"client-123", ["user", "openid"], some 900, some "https://rs.example.com/mcp"⟩
     rfl (by decide) (by decide)⟩

